import Mathlib

/-!
Shallow embedding of the `spwm` crate (software PWM generator).

Source files embedded:
  * `src/channel.rs` — public `SpwmChannel` operations (`update_frequency`,
    `update_duty_cycle`, `enable`, `disable`, `update_on_ticks`,
    `input_frequency_validate`);
  * `src/lib.rs`     — the `Spwm` manager (`new`, `set_channel_frequency`,
    `enable`, `irq_handler`) and its private per-channel helpers.

Rust `u32` values are modelled by `Nat`, with an explicit
`% 2^32` wherever the Rust code wraps (`AtomicU32::fetch_add`) or can wrap in
release builds (`period_ticks - 1`, `freq_hz * 100`).  Callback cells
(`OnceCell<fn>`) are modelled by occupancy flags; a callback invocation is
recorded as an emitted `Event`, so a function that runs callbacks returns the
new state together with the list of invocations in execution order.  Code
that can panic (`hardware_freq_hz / 0` in `Spwm::set_channel_frequency`)
returns `Option`, with `none` marking the panic.
-/

/-- `2^32`, the modulus of Rust `u32` arithmetic. -/
def U32_MOD : Nat := 4294967296

/-- Wrap a natural number into `u32` range. -/
def wrap32 (n : Nat) : Nat := n % U32_MOD

/-- Wrapping `u32` subtraction `a - b`, as performed by a release build. -/
def sub32 (a b : Nat) : Nat := (a % U32_MOD + (U32_MOD - b % U32_MOD)) % U32_MOD

/-- Whether the `u32` subtraction `a - b` underflows (wraps below zero). -/
def sub32_underflows (a b : Nat) : Bool := decide (a % U32_MOD < b % U32_MOD)

/-- `SpwmState` from `src/lib.rs`: the logical output level passed to the
on/off callback. -/
inductive SpwmState where
  | On : SpwmState
  | Off : SpwmState
deriving DecidableEq, Repr

/-- `SpwmError`: all error variants used across `src/lib.rs` and
`src/channel.rs`. -/
inductive SpwmError where
  | InvalidChannel : SpwmError
  | InvalidFrequency : SpwmError
  | InvalidDutyCycle : SpwmError
  | CallbackSetError : SpwmError
  | AlreadyEnabled : SpwmError
  | EnableFailed : SpwmError
  | AlreadyDisabled : SpwmError
  | DisableFailed : SpwmError
  | InvalidHardwareFrequency : SpwmError
deriving DecidableEq, Repr

/-- An observable callback invocation. -/
inductive Event where
  | period : Event
  | onOff : SpwmState → Event
  | timerStart : Event
  | timerStop : Event
deriving DecidableEq, Repr

/-- `const FREQUENCY_DIFFERENCE_REQUIRED: u32 = 100;` -/
def FREQUENCY_DIFFERENCE_REQUIRED : Nat := 100

/-- `const MAX_DUTY_CYCLE: u8 = 100;` -/
def MAX_DUTY_CYCLE : Nat := 100

/-- The state of one PWM channel (`struct SpwmChannel`, identical field set in
`src/channel.rs` and `src/lib.rs`).  The two `OnceCell` callback fields are
modelled by occupancy flags. -/
structure SpwmChannel where
  period_ticks : Nat
  on_ticks : Nat
  update_on_ticks : Nat
  counter : Nat
  enabled : Bool
  has_on_off_callback : Bool
  has_period_callback : Bool
deriving DecidableEq, Repr

/-- `SpwmChannel::default()`: all numeric fields zero, disabled, empty
callback cells. -/
def SpwmChannel.default : SpwmChannel :=
  { period_ticks := 0, on_ticks := 0, update_on_ticks := 0, counter := 0
    enabled := false, has_on_off_callback := false, has_period_callback := false }

/-- `fn input_frequency_validate(freq_hz, hardware_freq_hz)` from
`src/channel.rs`. -/
def input_frequency_validate (freq_hz hardware_freq_hz : Nat) :
    Except SpwmError Unit :=
  if freq_hz = 0 ∨ hardware_freq_hz / FREQUENCY_DIFFERENCE_REQUIRED < freq_hz then
    Except.error SpwmError.InvalidFrequency
  else
    Except.ok ()

/-- `SpwmChannel::set_period_ticks`. -/
def SpwmChannel.set_period_ticks (c : SpwmChannel) (p : Nat) : SpwmChannel :=
  { c with period_ticks := p }

/-- `SpwmChannel::set_on_ticks`. -/
def SpwmChannel.set_on_ticks (c : SpwmChannel) (v : Nat) : SpwmChannel :=
  { c with on_ticks := v }

/-- `SpwmChannel::update_on_ticks` (the method; the struct field of the same
name is the `update_on_ticks` projection): staged while enabled, immediate
while disabled. -/
def SpwmChannel.update_on_ticks_op (c : SpwmChannel) (v : Nat) : SpwmChannel :=
  if c.enabled then
    { c with update_on_ticks := v }
  else
    { c with on_ticks := v, update_on_ticks := v }

/-- `SpwmChannel::update_frequency(freq_hz, hardware_freq_hz)` from
`src/channel.rs`. -/
def SpwmChannel.update_frequency (c : SpwmChannel) (freq_hz hardware_freq_hz : Nat) :
    SpwmChannel × Except SpwmError Unit :=
  match input_frequency_validate freq_hz hardware_freq_hz with
  | Except.error e => (c, Except.error e)
  | Except.ok _ =>
      (c.set_period_ticks (hardware_freq_hz / freq_hz), Except.ok ())

/-- `SpwmChannel::update_duty_cycle(duty_cycle)` from `src/channel.rs`. -/
def SpwmChannel.update_duty_cycle (c : SpwmChannel) (duty_cycle : Nat) :
    SpwmChannel × Except SpwmError Unit :=
  if MAX_DUTY_CYCLE < duty_cycle then
    (c, Except.error SpwmError.InvalidDutyCycle)
  else
    (c.update_on_ticks_op (c.period_ticks / 100 * duty_cycle), Except.ok ())

/-- `SpwmChannel::enable` from `src/channel.rs` (public, compare-exchange
based).  In a sequential execution the compare-exchange fails exactly when
`enabled` is already `true`, yielding `AlreadyEnabled`. -/
def SpwmChannel.enable (c : SpwmChannel) :
    SpwmChannel × List Event × Except SpwmError Unit :=
  if c.enabled then
    (c, [], Except.error SpwmError.AlreadyEnabled)
  else
    let c' := { c with enabled := true }
    let evs := if c'.has_on_off_callback = true ∧ c'.on_ticks ≠ 0 then
        [Event.onOff SpwmState.On] else []
    (c', evs, Except.ok ())

/-- `SpwmChannel::disable` from `src/channel.rs` (public, compare-exchange
based). -/
def SpwmChannel.disable (c : SpwmChannel) :
    SpwmChannel × List Event × Except SpwmError Unit :=
  if c.enabled then
    let c' := { c with enabled := false, counter := 0 }
    let evs := if c'.has_on_off_callback then [Event.onOff SpwmState.Off] else []
    (c', evs, Except.ok ())
  else
    (c, [], Except.error SpwmError.AlreadyDisabled)

/-- The private `SpwmChannel::enable` of `src/lib.rs` (plain store, no
error). -/
def SpwmChannel.enable_lib (c : SpwmChannel) : SpwmChannel × List Event :=
  let c' := { c with enabled := true }
  let evs := if c'.has_on_off_callback = true ∧ c'.on_ticks ≠ 0 then
      [Event.onOff SpwmState.On] else []
  (c', evs)

/-- One enabled-channel step of `Spwm::irq_handler` (the loop body in
`src/lib.rs`, lines 260–290): increment the counter capturing the
pre-increment value, then dispatch on the period boundary
(`current_ticks == period_ticks - 1`, with `u32` wrapping subtraction) and the
on/off boundary (`current_ticks == on_ticks`). -/
def SpwmChannel.tick (c : SpwmChannel) : SpwmChannel × List Event :=
  if c.enabled then
    let current_ticks := c.counter
    let c1 := { c with counter := wrap32 (c.counter + 1) }
    let period_ticks := c1.period_ticks
    let on_ticks := c1.on_ticks
    if current_ticks = sub32 period_ticks 1 then
      let update_ticks := c1.update_on_ticks
      let c2 := { c1 with counter := 0 }
      let ev1 := if c2.has_period_callback then [Event.period] else []
      let c3 := if update_ticks ≠ on_ticks then c2.set_on_ticks update_ticks else c2
      let ev2 := if c3.on_ticks ≠ 0 ∧ c3.has_on_off_callback = true then
          [Event.onOff SpwmState.On] else []
      (c3, ev1 ++ ev2)
    else if current_ticks = on_ticks then
      (c1, if c1.has_on_off_callback then [Event.onOff SpwmState.Off] else [])
    else
      (c1, [])
  else
    (c, [])

/-- State part of `SpwmChannel.tick`. -/
def SpwmChannel.tickS (c : SpwmChannel) : SpwmChannel := (c.tick).1

/-- Whether the `period_ticks - 1` subtraction in `Spwm::irq_handler`
underflows for this channel: the subtraction is evaluated only for enabled
channels, and underflows exactly when `period_ticks` is zero. -/
def SpwmChannel.tick_underflows (c : SpwmChannel) : Bool :=
  c.enabled && sub32_underflows c.period_ticks 1

/-- `struct Spwm` from `src/lib.rs`: the manager.  The two optional timer
callbacks are modelled by occupancy flags. -/
structure Spwm where
  active : Bool
  freq_hz : Nat
  channels : List SpwmChannel
  has_start_callback : Bool
  has_stop_callback : Bool
deriving DecidableEq, Repr

/-- `Spwm::new(freq_hz, start_callback, stop_callback)`: four default
channels, inactive. -/
def Spwm.new (freq_hz : Nat) (has_start has_stop : Bool) : Spwm :=
  { active := false, freq_hz := freq_hz
    channels := List.replicate 4 SpwmChannel.default
    has_start_callback := has_start, has_stop_callback := has_stop }

/-- `Spwm::set_channel_frequency(channel, freq_hz)` from `src/lib.rs`.  The
bound check compares against `self.freq_hz * FREQUENCY_DIFFERENCE_REQUIRED`
(wrapping in release builds) and the period computation divides by `freq_hz`
without a zero check; `none` marks the division-by-zero panic. -/
def Spwm.set_channel_frequency (s : Spwm) (channel freq_hz : Nat) :
    Option (Spwm × Except SpwmError Unit) :=
  if s.channels.length ≤ channel then
    some (s, Except.error SpwmError.InvalidChannel)
  else if wrap32 (s.freq_hz * FREQUENCY_DIFFERENCE_REQUIRED) < freq_hz then
    some (s, Except.error SpwmError.InvalidFrequency)
  else if freq_hz = 0 then
    none
  else
    let period_ticks := s.freq_hz / freq_hz
    let c := (s.channels.getD channel SpwmChannel.default).set_period_ticks period_ticks
    some ({ s with channels := s.channels.set channel c }, Except.ok ())

/-- `Spwm::enable(channel)` from `src/lib.rs`: out-of-range check, then the
compare-exchange loop on `active` — if `active` is already `true` the call
returns `Ok(())` without touching the channel; otherwise it flips `active`,
enables the channel and fires the start callback. -/
def Spwm.enable (s : Spwm) (channel : Nat) :
    Spwm × List Event × Except SpwmError Unit :=
  if s.channels.length ≤ channel then
    (s, [], Except.error SpwmError.InvalidChannel)
  else if s.active then
    (s, [], Except.ok ())
  else
    let r := (s.channels.getD channel SpwmChannel.default).enable_lib
    let evs := r.2 ++ (if s.has_start_callback then [Event.timerStart] else [])
    ({ s with active := true, channels := s.channels.set channel r.1 }, evs,
      Except.ok ())

/-- `Spwm::irq_handler` from `src/lib.rs`: step every channel in index order,
concatenating the emitted callback invocations. -/
def Spwm.irq_handler (s : Spwm) : Spwm × List Event :=
  let stepped := s.channels.map SpwmChannel.tick
  ({ s with channels := stepped.map Prod.fst },
    (stepped.map Prod.snd).flatten)

/-- Whether any channel's `period_ticks - 1` subtraction in
`Spwm.irq_handler` underflows. -/
def Spwm.irq_underflows (s : Spwm) : Bool :=
  s.channels.any SpwmChannel.tick_underflows

/-- The per-channel state invariant of the spec: the counter stays inside the
period while enabled, and a disabled channel's counter is zero (as holds for
every reachable disabled state: `disable` resets the counter and nothing else
sets it while disabled). -/
def ChInv (c : SpwmChannel) : Prop :=
  (c.enabled = true → c.counter < c.period_ticks) ∧
  (c.enabled = false → c.counter = 0)

instance (c : SpwmChannel) : Decidable (ChInv c) := by
  unfold ChInv; infer_instance

/-! ## Shared arithmetic lemmas -/

theorem wrap32_eq_of_lt {n : Nat} (h : n < U32_MOD) : wrap32 n = n := by
  simp [wrap32, Nat.mod_eq_of_lt h]

theorem sub32_one_eq {p : Nat} (h1 : 0 < p) (h2 : p < U32_MOD) :
    sub32 p 1 = p - 1 := by
  unfold sub32 U32_MOD
  unfold U32_MOD at h2
  omega

/-! ## C3: update_frequency -/

/-- C3: for `freq_hz > 0` and `hardware_freq_hz ≥ 100 * freq_hz`,
`SpwmChannel.update_frequency` succeeds and sets `period_ticks` to the
truncating quotient `hardware_freq_hz / freq_hz`; for `freq_hz = 0` or
`freq_hz > hardware_freq_hz / 100`, it fails with `InvalidFrequency` and
leaves the channel unchanged. -/
theorem update_frequency_spec (c : SpwmChannel) (freq_hz hardware_freq_hz : Nat) :
    (0 < freq_hz → 100 * freq_hz ≤ hardware_freq_hz →
      (c.update_frequency freq_hz hardware_freq_hz).2 = Except.ok () ∧
      (c.update_frequency freq_hz hardware_freq_hz).1 =
        { c with period_ticks := hardware_freq_hz / freq_hz }) ∧
    ((freq_hz = 0 ∨ hardware_freq_hz / 100 < freq_hz) →
      c.update_frequency freq_hz hardware_freq_hz =
        (c, Except.error SpwmError.InvalidFrequency)) := by
  unfold SpwmChannel.update_frequency input_frequency_validate
    FREQUENCY_DIFFERENCE_REQUIRED SpwmChannel.set_period_ticks
  constructor
  · intro h1 h2
    have : ¬ (freq_hz = 0 ∨ hardware_freq_hz / 100 < freq_hz) := by omega
    simp [this]
  · intro h
    simp [h]

theorem update_frequency_spec_witness :
    (SpwmChannel.default.update_frequency 1000 100000).2 = Except.ok () ∧
    (SpwmChannel.default.update_frequency 0 100000).2 =
      Except.error SpwmError.InvalidFrequency :=
  ⟨((update_frequency_spec SpwmChannel.default 1000 100000).1
      (by decide) (by decide)).1,
   by
    have h := (update_frequency_spec SpwmChannel.default 0 100000).2 (Or.inl rfl)
    rw [h]⟩

/-! ## C4: update_duty_cycle -/

/-- C4: for `duty_cycle ≤ 100`, `SpwmChannel.update_duty_cycle` succeeds with
`v = period_ticks / 100 * duty_cycle` (truncating); on a disabled channel both
`on_ticks` and the staged `update_on_ticks` become `v` immediately, on an
enabled channel only the staged `update_on_ticks` becomes `v` while `on_ticks`
(and every other field) is untouched; for `duty_cycle > 100` it fails with
`InvalidDutyCycle` and changes nothing. -/
theorem update_duty_cycle_spec (c : SpwmChannel) (duty_cycle : Nat) :
    (duty_cycle ≤ 100 →
      (c.update_duty_cycle duty_cycle).2 = Except.ok () ∧
      (c.enabled = false →
        (c.update_duty_cycle duty_cycle).1 =
          { c with on_ticks := c.period_ticks / 100 * duty_cycle,
                   update_on_ticks := c.period_ticks / 100 * duty_cycle }) ∧
      (c.enabled = true →
        (c.update_duty_cycle duty_cycle).1 =
          { c with update_on_ticks := c.period_ticks / 100 * duty_cycle })) ∧
    (100 < duty_cycle →
      c.update_duty_cycle duty_cycle =
        (c, Except.error SpwmError.InvalidDutyCycle)) := by
  unfold SpwmChannel.update_duty_cycle SpwmChannel.update_on_ticks_op MAX_DUTY_CYCLE
  constructor
  · intro h
    have h' : ¬ (100 < duty_cycle) := by omega
    refine ⟨by simp [h'], ?_, ?_⟩
    · intro he; simp [h', he]
    · intro he; simp [h', he]
  · intro h
    simp [h]

/-- A configured, disabled channel used as the concrete input of the C4
witness. -/
def duty_witness_channel : SpwmChannel :=
  { SpwmChannel.default with period_ticks := 200 }

theorem update_duty_cycle_spec_witness :
    (duty_witness_channel.update_duty_cycle 50).1 =
      { duty_witness_channel with on_ticks := 100, update_on_ticks := 100 } :=
  (((update_duty_cycle_spec duty_witness_channel 50).1
      (by decide)).2.1 rfl).trans (by decide)

/-! ## C5: enable / disable two-state machine -/

/-- C5: with the on/off callback set, `enable` on a disabled channel returns
`Ok`, flips `enabled`, and fires "on" exactly when `on_ticks ≠ 0`; a second
`enable` fails with `AlreadyEnabled` mutating nothing and firing nothing.
`disable` on an enabled channel returns `Ok`, resets the counter to 0 and
unconditionally fires "off"; a second `disable` fails with `AlreadyDisabled`
mutating nothing and firing nothing. -/
theorem enable_disable_two_state (c : SpwmChannel)
    (hcb : c.has_on_off_callback = true) :
    (c.enabled = false →
      (c.enable).2.2 = Except.ok () ∧
      (c.enable).1 = { c with enabled := true } ∧
      (c.enable).2.1 =
        (if c.on_ticks ≠ 0 then [Event.onOff SpwmState.On] else [])) ∧
    (c.enabled = true →
      c.enable = (c, [], Except.error SpwmError.AlreadyEnabled)) ∧
    (c.enabled = true →
      (c.disable).2.2 = Except.ok () ∧
      (c.disable).1 = { c with enabled := false, counter := 0 } ∧
      (c.disable).2.1 = [Event.onOff SpwmState.Off]) ∧
    (c.enabled = false →
      c.disable = (c, [], Except.error SpwmError.AlreadyDisabled)) := by
  unfold SpwmChannel.enable SpwmChannel.disable
  refine ⟨?_, ?_, ?_, ?_⟩
  · intro he; simp [he, hcb]
  · intro he; simp [he]
  · intro he; simp [he, hcb]
  · intro he; simp [he]

/-- A configured, disabled channel with the on/off callback set, used as the
concrete input of the C5 witness. -/
def enable_witness_channel : SpwmChannel :=
  { SpwmChannel.default with has_on_off_callback := true, on_ticks := 5 }

theorem enable_disable_two_state_witness :
    (enable_witness_channel.enable).2.1 = [Event.onOff SpwmState.On] :=
  (((enable_disable_two_state enable_witness_channel rfl).1 rfl).2.2).trans
    (by decide)

/-! ## Tick case lemmas -/

/-- Boundary tick: with `counter = period_ticks - 1` (and `0 < period_ticks <
2^32`), one tick resets the counter, applies the staged on-ticks, and emits
the period callback followed by "on" exactly when the applied value is
nonzero. -/
theorem tick_boundary_eq (c : SpwmChannel) (hen : c.enabled = true)
    (hwf : c.period_ticks < U32_MOD) (hp : 0 < c.period_ticks)
    (hb : c.counter = c.period_ticks - 1) :
    c.tick = ({ c with counter := 0, on_ticks := c.update_on_ticks },
      (if c.has_period_callback then [Event.period] else []) ++
      (if c.update_on_ticks ≠ 0 ∧ c.has_on_off_callback = true then
        [Event.onOff SpwmState.On] else [])) := by
  obtain ⟨p, o, u, cnt, en, hob, hpb⟩ := c
  simp only at hen hwf hp hb
  subst hen hb
  have hs : sub32 p 1 = p - 1 := sub32_one_eq hp hwf
  by_cases hu : u = o
  · simp [SpwmChannel.tick, SpwmChannel.set_on_ticks, hs, hu]
  · simp [SpwmChannel.tick, SpwmChannel.set_on_ticks, hs, hu]

/-- Mid-period tick: with `counter + 1 < period_ticks`, one tick only
increments the counter and emits "off" exactly at `counter = on_ticks`. -/
theorem tick_mid_eq (c : SpwmChannel) (hen : c.enabled = true)
    (hwf : c.period_ticks < U32_MOD) (hlt : c.counter + 1 < c.period_ticks) :
    c.tick = ({ c with counter := c.counter + 1 },
      if c.counter = c.on_ticks ∧ c.has_on_off_callback = true then
        [Event.onOff SpwmState.Off] else []) := by
  obtain ⟨p, o, u, cnt, en, hob, hpb⟩ := c
  simp only at hen hwf hlt
  subst hen
  have hne : cnt ≠ sub32 p 1 := by
    rw [sub32_one_eq (by omega) hwf]; omega
  have hw : wrap32 (cnt + 1) = cnt + 1 :=
    wrap32_eq_of_lt (by unfold U32_MOD; unfold U32_MOD at hwf; omega)
  by_cases ho : cnt = o
  · subst ho
    simp [SpwmChannel.tick, hne, hw]
  · simp [SpwmChannel.tick, hne, hw, ho]

/-! ## C1: dispatcher tick case analysis -/

/-- C1: for an enabled channel in a legal state (`counter < period_ticks`)
with both callbacks set, a dispatcher tick with pre-increment counter `t`:
at the period boundary (`t ≥ period_ticks - 1`, which in a legal state is
`t = period_ticks - 1`) it resets the counter to 0, fires the period
callback first (before the staged `update_on_ticks` is applied, witnessed by
the event preceding the on-event of the updated value), applies the staged
value to `on_ticks`, and fires "on" iff the just-updated `on_ticks` is
nonzero; at `t = on_ticks` off the boundary it fires exactly "off"; on all
other ticks it fires nothing. -/
theorem irq_tick_dispatch (c : SpwmChannel)
    (hen : c.enabled = true) (hcb : c.has_on_off_callback = true)
    (hpcb : c.has_period_callback = true)
    (hwf : c.period_ticks < U32_MOD) (hinv : c.counter < c.period_ticks) :
    (c.period_ticks - 1 ≤ c.counter →
      c.tick = ({ c with counter := 0, on_ticks := c.update_on_ticks },
        Event.period ::
          (if c.update_on_ticks ≠ 0 then [Event.onOff SpwmState.On] else []))) ∧
    (c.counter < c.period_ticks - 1 → c.counter = c.on_ticks →
      c.tick = ({ c with counter := c.counter + 1 },
        [Event.onOff SpwmState.Off])) ∧
    (c.counter < c.period_ticks - 1 → c.counter ≠ c.on_ticks →
      c.tick = ({ c with counter := c.counter + 1 }, [])) := by
  refine ⟨?_, ?_, ?_⟩
  · intro hb
    rw [tick_boundary_eq c hen hwf (by omega) (by omega)]
    simp [hpcb, hcb]
  · intro hlt heq
    rw [tick_mid_eq c hen hwf (by omega)]
    simp [hcb, heq]
  · intro hlt hne
    rw [tick_mid_eq c hen hwf (by omega)]
    simp [hne]

/-- The concrete enabled channel used as input of the C1 witness: one tick
short of the period boundary, with a staged duty-cycle update. -/
def dispatch_witness_channel : SpwmChannel :=
  { period_ticks := 4, on_ticks := 2, update_on_ticks := 3, counter := 3
    enabled := true, has_on_off_callback := true, has_period_callback := true }

theorem irq_tick_dispatch_witness :
    dispatch_witness_channel.tick =
      ({ dispatch_witness_channel with counter := 0, on_ticks := 3 },
        [Event.period, Event.onOff SpwmState.On]) :=
  ((irq_tick_dispatch dispatch_witness_channel rfl rfl rfl
      (by decide) (by decide)).1 (by decide)).trans (by decide)

/-! ## C2: counter invariant -/

/-- C2 (amended): with `period_ticks > 0`, the invariant `ChInv` — counter
inside `[0, period_ticks)` while enabled, counter = 0 while disabled — is
preserved by a dispatcher tick, by `enable`, by `disable`, and by
`update_duty_cycle`; `update_frequency` preserves it when the channel is
disabled (on an enabled channel it can shrink `period_ticks` below the
running counter, see the counterexample). -/
theorem counter_invariant_preservation (c : SpwmChannel)
    (freq_hz hardware_freq_hz duty_cycle : Nat)
    (hwf : c.period_ticks < U32_MOD) (hp : 0 < c.period_ticks)
    (hinv : ChInv c) :
    ChInv c.tickS ∧ ChInv (c.enable).1 ∧ ChInv (c.disable).1 ∧
    ChInv (c.update_duty_cycle duty_cycle).1 ∧
    (c.enabled = false →
      ChInv (c.update_frequency freq_hz hardware_freq_hz).1) := by
  obtain ⟨hinv1, hinv2⟩ := hinv
  refine ⟨?_, ?_, ?_, ?_, ?_⟩
  · unfold SpwmChannel.tickS
    by_cases hen : c.enabled = true
    · by_cases hb : c.counter = c.period_ticks - 1
      · rw [tick_boundary_eq c hen hwf hp hb]
        exact ⟨fun _ => hp, fun h => by simp [hen] at h⟩
      · have hlt : c.counter + 1 < c.period_ticks := by
          have := hinv1 hen
          omega
        rw [tick_mid_eq c hen hwf hlt]
        exact ⟨fun _ => hlt, fun h => by simp [hen] at h⟩
    · have hc : c.tick = (c, []) := by
        unfold SpwmChannel.tick
        simp [hen]
      rw [hc]
      exact ⟨hinv1, hinv2⟩
  · unfold SpwmChannel.enable
    by_cases hen : c.enabled = true
    · simp only [hen, if_true]
      exact ⟨hinv1, hinv2⟩
    · simp only [hen, if_false]
      refine ⟨fun _ => ?_, fun h => by simp at h⟩
      have h0 : c.counter = 0 := hinv2 (by simpa using hen)
      show c.counter < c.period_ticks
      omega
  · unfold SpwmChannel.disable
    by_cases hen : c.enabled = true
    · simp only [hen, if_true]
      exact ⟨fun h => by simp at h, fun _ => rfl⟩
    · simp only [hen, if_false]
      exact ⟨hinv1, hinv2⟩
  · have hres : (c.update_duty_cycle duty_cycle).1.counter = c.counter ∧
        (c.update_duty_cycle duty_cycle).1.enabled = c.enabled ∧
        (c.update_duty_cycle duty_cycle).1.period_ticks = c.period_ticks := by
      unfold SpwmChannel.update_duty_cycle SpwmChannel.update_on_ticks_op
      split_ifs <;> simp
    obtain ⟨h1, h2, h3⟩ := hres
    refine ⟨fun h => ?_, fun h => ?_⟩
    · rw [h1, h3]
      exact hinv1 (h2.symm.trans h)
    · rw [h1]
      exact hinv2 (h2.symm.trans h)
  · intro hen
    have hres : (c.update_frequency freq_hz hardware_freq_hz).1.counter = c.counter ∧
        (c.update_frequency freq_hz hardware_freq_hz).1.enabled = c.enabled := by
      unfold SpwmChannel.update_frequency input_frequency_validate
        SpwmChannel.set_period_ticks
      split_ifs <;> simp
    obtain ⟨h1, h2⟩ := hres
    refine ⟨fun h => ?_, fun _ => ?_⟩
    · rw [h2, hen] at h
      cases h
    · rw [h1]
      exact hinv2 hen

theorem counter_invariant_preservation_witness :
    ChInv (SpwmChannel.tickS
      { SpwmChannel.default with period_ticks := 4, enabled := true }) :=
  (counter_invariant_preservation
    { SpwmChannel.default with period_ticks := 4, enabled := true }
    0 0 0 (by decide) (by decide) (by decide)).1

/-- The channel state reached by the interleaving: configure a default
channel to 500 Hz on a 100 kHz timer (period 200 ticks) at 50% duty
(on 100 ticks), `enable` it, run 150 dispatcher ticks (counter = 150), then
`update_frequency` to 1 kHz while still enabled (period shrinks to 100). -/
def invariant_cx_channel : SpwmChannel :=
  let c0 := SpwmChannel.default
  let c1 := (c0.update_frequency 500 100000).1
  let c2 := (c1.update_duty_cycle 50).1
  let c3 := (c2.enable).1
  let c4 := SpwmChannel.tickS^[150] c3
  (c4.update_frequency 1000 100000).1

set_option maxRecDepth 4000 in
/-- C2 counterexample: after the interleaving above — built only from the
operations the claim lists, starting from a configured channel with
`period_ticks > 0` — the channel is enabled with `period_ticks = 100 > 0` and
`counter = 150`, so `0 ≤ counter < period_ticks` fails. -/
theorem counter_invariant_cx :
    invariant_cx_channel.enabled = true ∧
    invariant_cx_channel.period_ticks = 100 ∧
    invariant_cx_channel.counter = 150 ∧
    ¬ ChInv invariant_cx_channel := by decide

/-! ## C6: staged duty-cycle application -/

/-- Iterating mid-period ticks only advances the counter: as long as the
counter stays short of the boundary, every other field is untouched. -/
theorem tickS_iterate_mid (j : Nat) :
    ∀ c : SpwmChannel, c.enabled = true → c.period_ticks < U32_MOD →
      c.counter + j < c.period_ticks →
      SpwmChannel.tickS^[j] c = { c with counter := c.counter + j } := by
  induction j with
  | zero =>
      intro c _ _ _
      rfl
  | succ n ih =>
      intro c hen hwf hj
      rw [Function.iterate_succ_apply]
      have hstep : SpwmChannel.tickS c = { c with counter := c.counter + 1 } := by
        unfold SpwmChannel.tickS
        rw [tick_mid_eq c hen hwf (by omega)]
      rw [hstep]
      have := ih { c with counter := c.counter + 1 } hen hwf (by simpa using by omega)
      rw [this]
      simp [Nat.add_assoc, Nat.add_comm 1 n]

/-- C6: on an enabled channel in a legal state, after a successful
`update_duty_cycle` (staging `v = period_ticks / 100 * duty_cycle`),
`on_ticks` keeps its old value after any number of dispatcher ticks that
stays short of the period boundary, and exactly at the boundary tick (the
`(period_ticks - counter)`-th one) `on_ticks` becomes the staged `v`. -/
theorem staged_duty_cycle_boundary (c : SpwmChannel) (duty_cycle : Nat)
    (hen : c.enabled = true) (hwf : c.period_ticks < U32_MOD)
    (hinv : c.counter < c.period_ticks) (hd : duty_cycle ≤ 100) :
    (∀ j, c.counter + j < c.period_ticks →
      (SpwmChannel.tickS^[j] (c.update_duty_cycle duty_cycle).1).on_ticks =
        c.on_ticks) ∧
    (SpwmChannel.tickS^[c.period_ticks - c.counter]
        (c.update_duty_cycle duty_cycle).1).on_ticks =
      c.period_ticks / 100 * duty_cycle := by
  have hc' : (c.update_duty_cycle duty_cycle).1 =
      { c with update_on_ticks := c.period_ticks / 100 * duty_cycle } := by
    unfold SpwmChannel.update_duty_cycle SpwmChannel.update_on_ticks_op
      MAX_DUTY_CYCLE
    have h1 : ¬ (100 < duty_cycle) := by omega
    simp [h1, hen]
  rw [hc']
  constructor
  · intro j hj
    rw [tickS_iterate_mid j
      { c with update_on_ticks := c.period_ticks / 100 * duty_cycle }
      hen hwf (by show c.counter + j < c.period_ticks; omega)]
  · have hk : c.period_ticks - c.counter =
        (c.period_ticks - 1 - c.counter) + 1 := by omega
    rw [hk, Function.iterate_succ_apply',
      tickS_iterate_mid (c.period_ticks - 1 - c.counter)
        { c with update_on_ticks := c.period_ticks / 100 * duty_cycle }
        hen hwf
        (by show c.counter + (c.period_ticks - 1 - c.counter) < c.period_ticks
            omega)]
    unfold SpwmChannel.tickS
    rw [tick_boundary_eq
      { c with update_on_ticks := c.period_ticks / 100 * duty_cycle,
               counter := c.counter + (c.period_ticks - 1 - c.counter) }
      hen hwf (by show 0 < c.period_ticks; omega)
      (by show c.counter + (c.period_ticks - 1 - c.counter) =
            c.period_ticks - 1
          omega)]

/-- The concrete enabled mid-period channel used as input of the C6 witness:
period 200, on-time 100, counter 150; duty cycle changed to 25% (staged
on-time 50). -/
def staged_witness_channel : SpwmChannel :=
  { period_ticks := 200, on_ticks := 100, update_on_ticks := 100, counter := 150
    enabled := true, has_on_off_callback := true, has_period_callback := true }

theorem staged_duty_cycle_boundary_witness :
    (SpwmChannel.tickS^[50]
      ((staged_witness_channel.update_duty_cycle 25).1)).on_ticks = 50 :=
  (staged_duty_cycle_boundary staged_witness_channel 25 rfl (by decide)
    (by decide) (by decide)).2

/-! ## C7: 0% and 100% duty-cycle edge behaviour -/

/-- C7: for an enabled channel in a legal state with both callbacks set and
no pending duty-cycle change: at 0% duty (`on_ticks = 0`) a dispatcher tick
never fires "on" while the period callback fires exactly at the boundary
tick, and the 0% configuration persists; at 100% duty
(`on_ticks = period_ticks`) a tick never fires "off", and the boundary tick
fires "on" (from the period-boundary branch). -/
theorem duty_cycle_edge_cases (c : SpwmChannel)
    (hen : c.enabled = true) (hcb : c.has_on_off_callback = true)
    (hpcb : c.has_period_callback = true)
    (hwf : c.period_ticks < U32_MOD) (hinv : c.counter < c.period_ticks) :
    (c.on_ticks = 0 → c.update_on_ticks = 0 →
      Event.onOff SpwmState.On ∉ (c.tick).2 ∧
      (Event.period ∈ (c.tick).2 ↔ c.counter = c.period_ticks - 1) ∧
      (c.tick).1.on_ticks = 0 ∧ (c.tick).1.update_on_ticks = 0) ∧
    (c.on_ticks = c.period_ticks → c.update_on_ticks = c.period_ticks →
      Event.onOff SpwmState.Off ∉ (c.tick).2 ∧
      (c.counter = c.period_ticks - 1 →
        Event.onOff SpwmState.On ∈ (c.tick).2)) := by
  constructor
  · intro ho hu
    by_cases hb : c.counter = c.period_ticks - 1
    · rw [tick_boundary_eq c hen hwf (by omega) hb]
      simp [hpcb, hu, hb, ho]
    · have hlt : c.counter + 1 < c.period_ticks := by omega
      rw [tick_mid_eq c hen hwf hlt]
      constructor
      · split_ifs <;> simp
      · refine ⟨?_, by simp [ho], by simp [hu]⟩
        constructor
        · intro hmem
          split_ifs at hmem <;> simp_all
        · intro h
          exact absurd h hb
  · intro ho hu
    by_cases hb : c.counter = c.period_ticks - 1
    · rw [tick_boundary_eq c hen hwf (by omega) hb]
      have hpne : c.period_ticks ≠ 0 := by omega
      simp [hpcb, hcb, hu, hpne]
    · have hlt : c.counter + 1 < c.period_ticks := by omega
      rw [tick_mid_eq c hen hwf hlt]
      have hne : ¬ (c.counter = c.on_ticks ∧ c.has_on_off_callback = true) := by
        rw [ho]
        intro hand
        omega
      simp [hne, hb]

/-- The concrete 100%-duty channel at its period boundary used as input of
the C7 witness. -/
def edge_witness_channel : SpwmChannel :=
  { period_ticks := 8, on_ticks := 8, update_on_ticks := 8, counter := 7
    enabled := true, has_on_off_callback := true, has_period_callback := true }

theorem duty_cycle_edge_cases_witness :
    Event.onOff SpwmState.On ∈ (edge_witness_channel.tick).2 :=
  ((duty_cycle_edge_cases edge_witness_channel rfl rfl rfl (by decide)
    (by decide)).2 rfl rfl).2 rfl

/-! ## C8: irq_handler totality and the period_ticks - 1 underflow -/

/-- The boundary subtraction underflows for a channel exactly when it is
enabled with a (wrapped) zero period. -/
theorem tick_underflows_iff (c : SpwmChannel) :
    c.tick_underflows = true ↔
      c.enabled = true ∧ c.period_ticks % U32_MOD = 0 := by
  unfold SpwmChannel.tick_underflows sub32_underflows
  have h1 : 1 % U32_MOD = 1 := by decide
  rw [h1]
  simp [Bool.and_eq_true, Nat.lt_one_iff]

/-- C8 (amended): `Spwm.irq_handler` is a total function — every invocation
produces a full successor state (all four channels stepped) and emits no
error — but the `u32` subtraction `period_ticks - 1` in its period-boundary
comparison does underflow (wrap) whenever some enabled channel has
`period_ticks = 0`, a state reachable by enabling an unconfigured channel:
no underflow occurs iff every enabled channel has nonzero `period_ticks`. -/
theorem irq_handler_totality_underflow (s : Spwm) :
    (s.irq_handler).1.channels.length = s.channels.length ∧
    (s.irq_underflows = false ↔
      ∀ c ∈ s.channels, c.enabled = true → c.period_ticks % U32_MOD ≠ 0) := by
  refine ⟨?_, ?_⟩
  · unfold Spwm.irq_handler
    simp
  · have hiff : s.irq_underflows = false ↔
        ¬ ∃ c ∈ s.channels, c.enabled = true ∧ c.period_ticks % U32_MOD = 0 := by
      rw [← Bool.not_eq_true]
      unfold Spwm.irq_underflows
      rw [List.any_eq_true]
      simp only [tick_underflows_iff]
    rw [hiff]
    push_neg
    rfl

theorem irq_handler_totality_underflow_witness :
    (Spwm.new 100000 false false).irq_underflows = false :=
  (irq_handler_totality_underflow (Spwm.new 100000 false false)).2.mpr
    (by decide)

/-- C8 counterexample: enabling channel 0 of a freshly constructed manager —
without configuring its frequency — leaves `period_ticks = 0` on an enabled
channel, and the next `irq_handler` invocation's `period_ticks - 1`
comparison underflows. -/
theorem irq_underflow_cx :
    (((Spwm.new 100000 false false).enable 0).1.irq_underflows = true) ∧
    ((((Spwm.new 100000 false false).enable 0).1.channels.getD 0
        SpwmChannel.default).enabled = true) ∧
    ((((Spwm.new 100000 false false).enable 0).1.channels.getD 0
        SpwmChannel.default).period_ticks = 0) := by decide

/-! ## C9: Spwm::set_channel_frequency validation bug -/

/-- C9: evaluating the code at the claim's inputs.  On a manager with
hardware frequency 100000, `set_channel_frequency(0, 0)` panics (division by
zero — `none` in the embedding) instead of returning `InvalidFrequency`,
and `set_channel_frequency(0, 50000)` — with `50000 > 100000 / 100` —
returns `Ok` and overwrites `period_ticks` with 2 instead of rejecting the
frequency, because the code compares against `freq_hz * 100` rather than
`freq_hz / 100` and never checks for zero. -/
theorem set_channel_frequency_bug :
    ((Spwm.new 100000 false false).set_channel_frequency 0 0 = none) ∧
    (((Spwm.new 100000 false false).set_channel_frequency 0 50000).map
        (fun r => r.2) = some (Except.ok ())) ∧
    (((Spwm.new 100000 false false).set_channel_frequency 0 50000).map
        (fun r => (r.1.channels.getD 0 SpwmChannel.default).period_ticks) =
      some 2) :=
  ⟨rfl, rfl, rfl⟩

/-! ## C10: the manager-level active flag gates Spwm::enable -/

/-- C10: for an in-range channel index, when the manager's `active` flag is
already set, `Spwm.enable` returns `Ok(())` touching nothing — the target
channel is not enabled, no on/off callback fires, and the start callback does
not fire; when `active` is still clear, the call enables the channel, sets
`active`, and fires the channel's "on" callback (if set and `on_ticks ≠ 0`)
followed by the start callback (if set). -/
theorem manager_enable_active_gate (s : Spwm) (channel : Nat)
    (hch : channel < s.channels.length) :
    (s.active = true → s.enable channel = (s, [], Except.ok ())) ∧
    (s.active = false →
      (s.enable channel).2.2 = Except.ok () ∧
      (s.enable channel).1.active = true ∧
      ((s.enable channel).1.channels.getD channel
        SpwmChannel.default).enabled = true ∧
      (s.enable channel).2.1 =
        (if (s.channels.getD channel SpwmChannel.default).has_on_off_callback
              = true ∧
            (s.channels.getD channel SpwmChannel.default).on_ticks ≠ 0 then
          [Event.onOff SpwmState.On] else []) ++
        (if s.has_start_callback then [Event.timerStart] else [])) := by
  have hnot : ¬ (s.channels.length ≤ channel) := by omega
  constructor
  · intro ha
    unfold Spwm.enable
    simp [hnot, ha]
  · intro ha
    unfold Spwm.enable SpwmChannel.enable_lib
    simp [hnot, ha, List.getD_eq_getElem?_getD]
    rw [List.getElem?_set_eq_of_lt _ hch]
    rfl

/-- A manager whose timer is already active: reached by `Spwm.new` followed
by one successful `Spwm.enable`.  Concrete input of the C10 witness. -/
def active_manager : Spwm := ((Spwm.new 100000 true false).enable 0).1

theorem manager_enable_active_gate_witness :
    active_manager.enable 1 = (active_manager, [], Except.ok ()) :=
  (manager_enable_active_gate active_manager 1 (by decide)).1 (by decide)
